import Mathlib

/-!
Tabboz Simulator: the phone shop (`C/telefono.c`)

A shallow embedding of the three dialog procedures of `telefono.c`
(`CompraCellulare`, `AbbonaCellulare`, `Cellular`) together with their helpers
`CellularVacanza` and `AggiornaCell`, followed by theorems about the ledger
(`Soldi`, `Fama`, `CellularData`, `AbbonamentData`).

Conventions of the embedding

* The process-wide variables and the two function-local `static int scelta`
  counters are fields of one record, `World`, threaded through every function.
* Every call into the windowing shim (`SetDlgItemText`, `MessageBox`,
  `EndDialog`, `DialogBox`) is appended to `World.ui`, oldest call first, so that
  "a notice is shown" and "the dialog is closed" are statements about that log.
* `zarrosim.h` (the declarations of `Soldi`, `Fama`, `STCEL`, `STABB`, the two
  catalogs and the resource numbers) is not among the sources.  The numeric
  variables are integers (`Int`) and arithmetic is the one of the integers, that
  is, the C arithmetic whenever no intermediate result leaves the range of its
  type.  The theorems on order therefore carry range hypotheses: the reputation
  bounds ask every delta to lie in `[0, INT_MAX - 100]`, and the funds invariant
  asks prices to lie in `[0, p]` and gives the bound under which no sum or
  difference of the run overflows; with non-negative amounts the comparisons and
  the arithmetic on `Soldi` read the same for a signed and an unsigned type.
  The catalogs, the resource numbers, `LOWORD` and `MostraSoldi` (declared but
  not defined in the sources) are parameters, gathered in `Env`.
* What the player does is an input: the answer given to the yes/no
  `MessageBox`, and the messages delivered to a modal child dialog.
-/

namespace Tabboz

/-! ## Constants of `stubs.h` -/

def WM_INITDIALOG : Int := 0
def WM_COMMAND : Int := 1

def IDCANCEL : Int := 0
def IDOK : Int := 1
def IDNO : Int := 2
def IDYES : Int := 3

def MB_OK : Nat := 0
def MB_YESNO : Nat := 0
def MB_ICONQUESTION : Nat := 0
def MB_ICONINFORMATION : Nat := 0

/-- The value of the C macro `TRUE`, as passed to `EndDialog`. -/
def TRUE : Int := 1

/-- A window handle (`HWND`); only its identity matters. -/
abbrev HWND := Nat

/-! ## Data -/

/-- A phone (`STCEL`): the fields `telefono.c` reads or writes. -/
structure STCEL where
  fama : Int
  stato : Int
  prezzo : Int
  nome : String
deriving DecidableEq, Repr

/-- A subscription plan (`STABB`): the fields `telefono.c` reads, and the
reputation delta the data model gives every catalog item. -/
structure STABB where
  creditorest : Int
  fama : Int
  prezzo : Int
  nome : String
deriving DecidableEq, Repr

/-- One call into the windowing shim. -/
inductive UiCall where
  | SetDlgItemText (h : HWND) (d : Int) (str : Option String)
  | MessageBox (h : HWND) (msg : String) (title : String) (flags : Nat)
  | EndDialog (dlg : HWND) (x : Int)
  | DialogBox (b : Int) (c : HWND)
  | nomoney (parent : HWND) (tipo : Int)
deriving DecidableEq, Repr

/-- The mutable state: the globals `telefono.c` touches, the two `static int
scelta` counters, the shim flag `shouldEndDialog` of `stubs.h`, and the log of
shim calls. -/
structure World where
  Soldi : Int
  Fama : Int
  CellularData : STCEL
  AbbonamentData : STABB
  x_vacanza : Int
  /-- The counter `static int scelta = 0;` of `CompraCellulare`. -/
  sceltaCompra : Int
  /-- The counter `static int scelta = 0;` of `AbbonaCellulare`. -/
  sceltaAbbona : Int
  shouldEndDialog : Bool
  ui : List UiCall
deriving DecidableEq, Repr

/-- What `telefono.c` uses and the sources do not define. -/
structure Env where
  /-- The shim function `int LOWORD(int x)`. -/
  LOWORD : Int → Int
  /-- The currency formatter. -/
  MostraSoldi : Int → String
  /-- The phone catalog, `CellularMem[i]`. -/
  CellularMem : Int → STCEL
  /-- The plan catalog, `AbbonamentMem[i]`. -/
  AbbonamentMem : Int → STABB
  /-- Resource number of the purchase dialog. -/
  COMPRACELLULAR : Int
  /-- Resource number of the subscription dialog, also the tag given to `nomoney`. -/
  CELLULRABBONAM : Int

/-- What the player does inside one modal child dialog: the handle the shim
gives it and the messages `(message, wParam, lParam)` it receives after
`WM_INITDIALOG`. -/
structure Modale where
  hwnd : HWND
  messaggi : List (Int × Int × Int)
deriving DecidableEq, Repr

/-! ## The shim -/

/-- Append one shim call to the log. -/
def World.emit (w : World) (c : UiCall) : World :=
  { w with ui := w.ui ++ [c] }

def SetDlgItemText (h : HWND) (d : Int) (str : Option String) (w : World) : World :=
  w.emit (UiCall.SetDlgItemText h d str)

/-- The call `MessageBox(h, msg, title, flags)`; the value it returns is the
player's answer, an input of the caller. -/
def MessageBox (h : HWND) (msg title : String) (flags : Nat) (w : World) : World :=
  w.emit (UiCall.MessageBox h msg title flags)

/-- Modelled from the spec: `EndDialog` (declared in `stubs.h`, body missing)
is how a flow "signals completion"; it is logged and raises the flag
`shouldEndDialog` of `stubs.h`. -/
def EndDialog (dlg : HWND) (x : Int) (w : World) : World :=
  { w.emit (UiCall.EndDialog dlg x) with shouldEndDialog := true }

/-- Modelled from the spec: `nomoney` (defined outside `telefono.c`) shows the
"cannot afford" notice; the spec gives the insufficient-funds path "no ledger
mutation". -/
def nomoney (parent : HWND) (tipo : Int) (w : World) : World :=
  w.emit (UiCall.nomoney parent tipo)

/-- A dialog procedure: `(hDlg, message, wParam, lParam)` to a result and a new state. -/
abbrev DialogProcFunc := HWND → Int → Int → Int → World → Bool × World

/-- The message loop of a modal dialog: deliver the messages in order until the
dialog has been ended. -/
def pompa (proc : DialogProcFunc) (h : HWND) : List (Int × Int × Int) → World → World
  | [], w => w
  | m :: rest, w =>
    if w.shouldEndDialog then w
    else pompa proc h rest (proc h m.1 m.2.1 m.2.2 w).2

/-- Modelled from the spec: `DialogBox` (declared in `stubs.h`, body missing) is
"openModal(flowId) -> void, blocking until the flow signals completion": the
child receives `WM_INITDIALOG`, then the player's messages until it calls
`EndDialog`; the parent is then resumed, not ended. -/
def DialogBox (b : Int) (c : HWND) (proc : DialogProcFunc) (m : Modale) (w : World) : World :=
  let w := w.emit (UiCall.DialogBox b c)
  let w := { w with shouldEndDialog := false }
  let w := (proc m.hwnd WM_INITDIALOG 0 0 w).2
  let w := pompa proc m.hwnd m.messaggi w
  { w with shouldEndDialog := false }

/-! ## `telefono.c` -/

/-- `CellularVacanza`: `0` when the shop is open, `-1` (after the notice) on a
holiday. -/
def CellularVacanza (hDlg : HWND) (w : World) : Int × World :=
  if w.x_vacanza ≠ 2 then
    (0, w)
  else
    (-1, MessageBox hDlg
      "Stranamente, in un giorno di vacanza, il negozio e' chiuso..."
      "Telefonino" (MB_OK ||| MB_ICONINFORMATION) w)

/-- `CompraCellulare`, the purchase dialog. -/
def CompraCellulare (E : Env) : DialogProcFunc := fun hDlg message wParam _lParam w =>
  if message = WM_INITDIALOG then
    let w := SetDlgItemText hDlg 104 (some (E.MostraSoldi w.Soldi)) w
    let w := (List.range 3).foldl
      (fun (w : World) (i : Nat) => SetDlgItemText hDlg (120 + (i : Int))
        (some (E.MostraSoldi (E.CellularMem (i : Int)).prezzo)) w) w
    (true, w)
  else if message = WM_COMMAND then
    if E.LOWORD wParam = 110 ∨ E.LOWORD wParam = 111 ∨ E.LOWORD wParam = 112 then
      (true, { w with sceltaCompra := E.LOWORD wParam - 110 })
    else if E.LOWORD wParam = IDCANCEL then
      (true, EndDialog hDlg TRUE w)
    else if E.LOWORD wParam = IDOK then
      if w.Soldi < (E.CellularMem w.sceltaCompra).prezzo then
        let w := nomoney hDlg E.CELLULRABBONAM w
        let w := EndDialog hDlg TRUE w
        (true, w)
      else
        let w := { w with Soldi := w.Soldi - (E.CellularMem w.sceltaCompra).prezzo }
        let w := { w with CellularData := E.CellularMem w.sceltaCompra }
        let w := { w with Fama := w.Fama + (E.CellularMem w.sceltaCompra).fama }
        let w := if w.Fama > 100 then { w with Fama := 100 } else w
        let w := EndDialog hDlg TRUE w
        (true, w)
    else
      (true, w)
  else
    (false, w)

/-- Modelled from the spec: `compraAbbonamento` (a method of `Tabboz.global`, its
body outside `telefono.c`): "Confirmation logic mirrors PurchaseFlow's funds
check and ledger mutation, applied to `subscription` instead of `ownedPhone`". -/
def compraAbbonamento (E : Env) (scelta : Int) (hDlg : HWND) (w : World) : World :=
  if w.Soldi < (E.AbbonamentMem scelta).prezzo then
    let w := nomoney hDlg E.CELLULRABBONAM w
    EndDialog hDlg TRUE w
  else
    let w := { w with Soldi := w.Soldi - (E.AbbonamentMem scelta).prezzo }
    let w := { w with AbbonamentData := E.AbbonamentMem scelta }
    let w := { w with Fama := min 100 (w.Fama + (E.AbbonamentMem scelta).fama) }
    EndDialog hDlg TRUE w

/-- `AbbonaCellulare`, the subscription dialog. -/
def AbbonaCellulare (E : Env) : DialogProcFunc := fun hDlg message wParam _lParam w =>
  if message = WM_INITDIALOG then
    let w := SetDlgItemText hDlg 104 (some (E.MostraSoldi w.Soldi)) w
    let w := if w.AbbonamentData.creditorest > -1 then
        SetDlgItemText hDlg 105 (some w.AbbonamentData.nome) w
      else w
    let w := (List.range 9).foldl
      (fun (w : World) (i : Nat) => SetDlgItemText hDlg (110 + (i : Int))
        (some (E.MostraSoldi (E.AbbonamentMem (i : Int)).prezzo)) w) w
    (true, w)
  else if message = WM_COMMAND then
    if E.LOWORD wParam = 110 ∨ E.LOWORD wParam = 111 ∨ E.LOWORD wParam = 112
        ∨ E.LOWORD wParam = 113 ∨ E.LOWORD wParam = 114 ∨ E.LOWORD wParam = 115
        ∨ E.LOWORD wParam = 116 ∨ E.LOWORD wParam = 117 ∨ E.LOWORD wParam = 118 then
      (true, { w with sceltaAbbona := E.LOWORD wParam - 110 })
    else if E.LOWORD wParam = IDCANCEL then
      (true, EndDialog hDlg TRUE w)
    else if E.LOWORD wParam = IDOK then
      (true, compraAbbonamento E w.sceltaAbbona hDlg w)
    else
      (true, w)
  else
    (false, w)

/-- `AggiornaCell`: refresh the summary display. -/
def AggiornaCell (E : Env) (hDlg : HWND) (w : World) : World :=
  let w := SetDlgItemText hDlg 104 (some (E.MostraSoldi w.Soldi)) w
  let w := if w.CellularData.stato > -1 then
      SetDlgItemText hDlg 120 (some w.CellularData.nome) w
    else
      SetDlgItemText hDlg 120 none w
  if w.AbbonamentData.creditorest > -1 then
    let w := SetDlgItemText hDlg 121 (some w.AbbonamentData.nome) w
    SetDlgItemText hDlg 122 (some (E.MostraSoldi w.AbbonamentData.creditorest)) w
  else
    let w := SetDlgItemText hDlg 121 none w
    SetDlgItemText hDlg 122 none w

/-- The text of the sell-back question for an offer. -/
def testoOfferta (E : Env) (offerta : Int) : String :=
  "Ti posso dare " ++ E.MostraSoldi offerta ++ " per il tuo telefonino... vuoi vendermelo ?"

/-- `Cellular`, the menu.  `risposta` is what the yes/no `MessageBox` of command
111 returns; `m` is what happens inside the child dialog of commands 110 and 112. -/
def Cellular (E : Env) (hDlg : HWND) (message wParam _lParam : Int)
    (risposta : Int) (m : Modale) (w : World) : Bool × World :=
  if message = WM_INITDIALOG then
    (true, AggiornaCell E hDlg w)
  else if message = WM_COMMAND then
    if E.LOWORD wParam = 110 then
      let (r, w) := CellularVacanza hDlg w
      if r = 0 then
        let w := DialogBox E.COMPRACELLULAR hDlg (CompraCellulare E) m w
        (true, AggiornaCell E hDlg w)
      else
        (true, w)
    else if E.LOWORD wParam = 111 then
      let (r, w) := CellularVacanza hDlg w
      if r = 0 then
        let w :=
          if w.CellularData.stato > -1 then
            let offerta := Int.tdiv w.CellularData.prezzo 2 + 15
            let w := MessageBox hDlg (testoOfferta E offerta) "Telefonino"
              (MB_YESNO ||| MB_ICONQUESTION) w
            let scelta := risposta
            if scelta = IDYES then
              let w := { w with CellularData := { w.CellularData with stato := -1 } }
              { w with Soldi := w.Soldi + offerta }
            else
              MessageBox hDlg "Allora vai a farti fottere, pirletta !" "Telefonino"
                (MB_OK ||| MB_ICONINFORMATION) w
          else
            MessageBox hDlg "Che telefonino vuoi vendere, pirletta ?" "Telefonino"
              (MB_OK ||| MB_ICONINFORMATION) w
        (true, AggiornaCell E hDlg w)
      else
        (true, w)
    else if E.LOWORD wParam = 112 then
      let (r, w) := CellularVacanza hDlg w
      if r = 0 then
        let w := DialogBox E.CELLULRABBONAM hDlg (AbbonaCellulare E) m w
        (true, AggiornaCell E hDlg w)
      else
        (true, w)
    else if E.LOWORD wParam = 150 ∨ E.LOWORD wParam = IDOK ∨ E.LOWORD wParam = IDCANCEL then
      (true, EndDialog hDlg TRUE w)
    else
      (true, w)
  else
    (false, w)

/-! ## Sequences of operations -/

/-- One operation of the phone shop: a message delivered to one of the three
dialog procedures, with the player's inputs for `Cellular`. -/
inductive Op where
  | compra (hDlg : HWND) (message wParam lParam : Int)
  | abbona (hDlg : HWND) (message wParam lParam : Int)
  | cellular (hDlg : HWND) (message wParam lParam : Int) (risposta : Int) (m : Modale)
deriving DecidableEq, Repr

/-- Perform one operation. -/
def Op.esegui (E : Env) : Op → World → World
  | Op.compra hDlg message wParam lParam, w => (CompraCellulare E hDlg message wParam lParam w).2
  | Op.abbona hDlg message wParam lParam, w => (AbbonaCellulare E hDlg message wParam lParam w).2
  | Op.cellular hDlg message wParam lParam risposta m, w =>
    (Cellular E hDlg message wParam lParam risposta m w).2

/-- Perform a sequence of operations, first to last. -/
def run (E : Env) (ops : List Op) (w : World) : World :=
  ops.foldl (fun w op => op.esegui E w) w

/-- A shop whose `LOWORD` keeps the low 16 bits and whose catalog is the one of
the scenarios: `catalog[0].price = 60`, `catalog[1] = (price 150, delta 10)`. -/
def negozio : Env where
  LOWORD := fun x => x % 65536
  MostraSoldi := fun n => if n < 0 then "-" ++ toString n.natAbs else toString n.natAbs
  CellularMem := fun i =>
    if i = 0 then { fama := 2, stato := 0, prezzo := 60, nome := "Motorolo" }
    else if i = 1 then { fama := 10, stato := 0, prezzo := 150, nome := "Macro" }
    else { fama := 15, stato := 0, prezzo := 400, nome := "Nokkia" }
  AbbonamentMem := fun i =>
    { creditorest := 50 + 10 * i, fama := 1, prezzo := 100 + 10 * i, nome := "Omnitel" }
  COMPRACELLULAR := 120
  CELLULRABBONAM := 121

/-- A session start: no phone, no subscription, an ordinary day. -/
def inizio (soldi fama : Int) : World where
  Soldi := soldi
  Fama := fama
  CellularData := { fama := 0, stato := -1, prezzo := 0, nome := "" }
  AbbonamentData := { creditorest := -1, fama := 0, prezzo := 0, nome := "" }
  x_vacanza := 0
  sceltaCompra := 0
  sceltaAbbona := 0
  shouldEndDialog := false
  ui := []

/-- The shim call that presents a sell-back offer. -/
def UiCall.eOfferta (E : Env) : UiCall → Prop
  | UiCall.MessageBox _ msg _ _ => ∃ offerta, msg = testoOfferta E offerta
  | _ => False

/-- A property of the state that neither the shim log nor the shim flag affects. -/
structure Stabile (P : World → Prop) : Prop where
  emit : ∀ w c, P w → P (w.emit c)
  flag : ∀ w b, P w → P { w with shouldEndDialog := b }

/-- The state after a successful confirm of the purchase dialog, shim calls apart. -/
def World.comprato (E : Env) (w : World) : World :=
  { w with
    Soldi := w.Soldi - (E.CellularMem w.sceltaCompra).prezzo
    CellularData := E.CellularMem w.sceltaCompra
    Fama := min 100 (w.Fama + (E.CellularMem w.sceltaCompra).fama) }

/-- The state after an accepted sell-back, shim calls apart. -/
def World.venduto (w : World) : World :=
  { w with
    CellularData := { w.CellularData with stato := -1 }
    Soldi := w.Soldi + (Int.tdiv w.CellularData.prezzo 2 + 15) }

/-- The state after a successful confirm of the subscription dialog at plan `i`,
shim calls apart. -/
def World.abbonato (E : Env) (i : Int) (w : World) : World :=
  { w with
    Soldi := w.Soldi - (E.AbbonamentMem i).prezzo
    AbbonamentData := E.AbbonamentMem i
    Fama := min 100 (w.Fama + (E.AbbonamentMem i).fama) }

/-- Both retained selections index their catalog. -/
def SceltaInv (w : World) : Prop :=
  (0 ≤ w.sceltaCompra ∧ w.sceltaCompra ≤ 2) ∧ (0 ≤ w.sceltaAbbona ∧ w.sceltaAbbona ≤ 8)

/-- A session in which the player owns the phone `c`. -/
def conTelefono (soldi fama : Int) (c : STCEL) : World :=
  { inizio soldi fama with CellularData := c }

/-! ## Lemmas -/

section Lemmi
variable {P : World → Prop}

theorem Stabile.setText (hP : Stabile P) (h : HWND) (d : Int) (s : Option String) {w : World}
    (hw : P w) : P (SetDlgItemText h d s w) := hP.emit _ _ hw

theorem Stabile.messageBox (hP : Stabile P) (h : HWND) (msg title : String) (f : Nat) {w : World}
    (hw : P w) : P (MessageBox h msg title f w) := hP.emit _ _ hw

theorem Stabile.endDialog (hP : Stabile P) (h : HWND) (x : Int) {w : World}
    (hw : P w) : P (EndDialog h x w) := hP.flag _ true (hP.emit _ _ hw)

theorem Stabile.nomoney (hP : Stabile P) (h : HWND) (t : Int) {w : World}
    (hw : P w) : P (nomoney h t w) := hP.emit _ _ hw

theorem Stabile.foldText (hP : Stabile P) (h : HWND) (f : Nat → Int) (g : Nat → Option String)
    (l : List Nat) {w : World} (hw : P w) :
    P (l.foldl (fun w i => SetDlgItemText h (f i) (g i) w) w) := by
  induction l generalizing w with
  | nil => exact hw
  | cons a l ih => exact ih (hP.setText _ _ _ hw)

theorem Stabile.aggiornaCell (hP : Stabile P) (E : Env) (h : HWND) {w : World}
    (hw : P w) : P (AggiornaCell E h w) := by
  unfold AggiornaCell
  simp only []
  split <;> split <;> exact hP.setText _ _ _ (hP.setText _ _ _ (hP.setText _ _ _ (hP.setText _ _ _ hw)))

theorem Stabile.cellularVacanza (hP : Stabile P) (h : HWND) {w : World}
    (hw : P w) : P (CellularVacanza h w).2 := by
  unfold CellularVacanza
  split
  · exact hw
  · exact hP.messageBox _ _ _ _ hw

theorem pompa_inv (proc : DialogProcFunc)
    (hproc : ∀ h m wp lp w, P w → P (proc h m wp lp w).2)
    (h : HWND) (msgs : List (Int × Int × Int)) {w : World} (hw : P w) :
    P (pompa proc h msgs w) := by
  induction msgs generalizing w with
  | nil => exact hw
  | cons m rest ih =>
    unfold pompa
    split
    · exact hw
    · exact ih (hproc _ _ _ _ _ hw)

theorem DialogBox_inv (hP : Stabile P) (proc : DialogProcFunc)
    (hproc : ∀ h m wp lp w, P w → P (proc h m wp lp w).2)
    (b : Int) (c : HWND) (m : Modale) {w : World} (hw : P w) :
    P (DialogBox b c proc m w) := by
  unfold DialogBox
  exact hP.flag _ _ (pompa_inv proc hproc _ _ (hproc _ _ _ _ _ (hP.flag _ _ (hP.emit _ _ hw))))

end Lemmi

theorem CompraCellulare_select (E : Env) (hDlg : HWND) (wParam lParam : Int) (w : World)
    (hcmd : E.LOWORD wParam = 110 ∨ E.LOWORD wParam = 111 ∨ E.LOWORD wParam = 112) :
    CompraCellulare E hDlg WM_COMMAND wParam lParam w =
      (true, { w with sceltaCompra := E.LOWORD wParam - 110 }) := by
  simp [CompraCellulare, hcmd, WM_COMMAND, WM_INITDIALOG]

theorem CompraCellulare_cancel (E : Env) (hDlg : HWND) (wParam lParam : Int) (w : World)
    (hcmd : E.LOWORD wParam = IDCANCEL) :
    CompraCellulare E hDlg WM_COMMAND wParam lParam w = (true, EndDialog hDlg TRUE w) := by
  simp [CompraCellulare, hcmd, IDCANCEL, WM_COMMAND, WM_INITDIALOG]

theorem CompraCellulare_povero (E : Env) (hDlg : HWND) (wParam lParam : Int) (w : World)
    (hcmd : E.LOWORD wParam = IDOK)
    (hpoor : w.Soldi < (E.CellularMem w.sceltaCompra).prezzo) :
    CompraCellulare E hDlg WM_COMMAND wParam lParam w =
      (true, EndDialog hDlg TRUE (nomoney hDlg E.CELLULRABBONAM w)) := by
  simp [CompraCellulare, hcmd, hpoor, IDOK, IDCANCEL, WM_COMMAND, WM_INITDIALOG]

theorem CompraCellulare_ricco (E : Env) (hDlg : HWND) (wParam lParam : Int) (w : World)
    (hcmd : E.LOWORD wParam = IDOK)
    (hrich : (E.CellularMem w.sceltaCompra).prezzo ≤ w.Soldi) :
    CompraCellulare E hDlg WM_COMMAND wParam lParam w =
      (true, EndDialog hDlg TRUE (w.comprato E)) := by
  have h : ¬ w.Soldi < (E.CellularMem w.sceltaCompra).prezzo := not_lt.mpr hrich
  by_cases hf : w.Fama + (E.CellularMem w.sceltaCompra).fama > 100
  · have hm : min 100 (w.Fama + (E.CellularMem w.sceltaCompra).fama) = 100 := by omega
    simp [CompraCellulare, World.comprato, hcmd, h, hf, hm, IDOK, IDCANCEL, WM_COMMAND,
      WM_INITDIALOG]
  · have hm : min 100 (w.Fama + (E.CellularMem w.sceltaCompra).fama)
        = w.Fama + (E.CellularMem w.sceltaCompra).fama := by omega
    simp [CompraCellulare, World.comprato, hcmd, h, hf, hm, IDOK, IDCANCEL, WM_COMMAND,
      WM_INITDIALOG]

section Lemmi2
variable {P : World → Prop}

theorem CompraCellulare_inv (hP : Stabile P) (E : Env)
    (hsel : ∀ w c, (c = 110 ∨ c = 111 ∨ c = 112) → P w → P { w with sceltaCompra := c - 110 })
    (hbuy : ∀ w, (E.CellularMem w.sceltaCompra).prezzo ≤ w.Soldi → P w → P (w.comprato E))
    (h : HWND) (m wp lp : Int) (w : World) (hw : P w) :
    P (CompraCellulare E h m wp lp w).2 := by
  by_cases hm : m = WM_COMMAND
  · subst hm
    by_cases h1 : E.LOWORD wp = 110 ∨ E.LOWORD wp = 111 ∨ E.LOWORD wp = 112
    · rw [CompraCellulare_select E h wp lp w h1]
      exact hsel _ _ h1 hw
    · by_cases h2 : E.LOWORD wp = IDCANCEL
      · rw [CompraCellulare_cancel E h wp lp w h2]
        exact hP.endDialog _ _ hw
      · by_cases h3 : E.LOWORD wp = IDOK
        · by_cases h4 : w.Soldi < (E.CellularMem w.sceltaCompra).prezzo
          · rw [CompraCellulare_povero E h wp lp w h3 h4]
            exact hP.endDialog _ _ (hP.nomoney _ _ hw)
          · rw [CompraCellulare_ricco E h wp lp w h3 (not_lt.mp h4)]
            exact hP.endDialog _ _ (hbuy _ (not_lt.mp h4) hw)
        · simp [CompraCellulare, h1, h2, h3, WM_COMMAND, WM_INITDIALOG]
          exact hw
  · by_cases hi : m = WM_INITDIALOG
    · subst hi
      simp only [CompraCellulare, if_true]
      exact hP.foldText _ _ _ _ (hP.setText _ _ _ hw)
    · simp [CompraCellulare, hm, hi]
      exact hw

theorem compraAbbonamento_inv (hP : Stabile P) (E : Env)
    (hbuy : ∀ w i, (E.AbbonamentMem i).prezzo ≤ w.Soldi → P w → P (w.abbonato E i))
    (i : Int) (h : HWND) (w : World) (hw : P w) :
    P (compraAbbonamento E i h w) := by
  unfold compraAbbonamento
  split
  · exact hP.endDialog _ _ (hP.nomoney _ _ hw)
  · rename_i h4
    exact hP.endDialog _ _ (hbuy _ _ (not_lt.mp h4) hw)

theorem AbbonaCellulare_inv (hP : Stabile P) (E : Env)
    (hsel : ∀ w c, (110 ≤ c ∧ c ≤ 118) → P w → P { w with sceltaAbbona := c - 110 })
    (hbuy : ∀ w i, (E.AbbonamentMem i).prezzo ≤ w.Soldi → P w → P (w.abbonato E i))
    (h : HWND) (m wp lp : Int) (w : World) (hw : P w) :
    P (AbbonaCellulare E h m wp lp w).2 := by
  unfold AbbonaCellulare
  simp only []
  split
  · apply hP.foldText
    split
    · exact hP.setText _ _ _ (hP.setText _ _ _ hw)
    · exact hP.setText _ _ _ hw
  · split
    · split
      · rename_i h1
        exact hsel _ _ (by omega) hw
      · split
        · exact hP.endDialog _ _ hw
        · split
          · exact compraAbbonamento_inv hP E hbuy _ _ _ hw
          · exact hw
    · exact hw

theorem Cellular_inv2 {Q : World → Prop} (hP : Stabile P) (hQ : Stabile Q)
    (hPQ : ∀ w, P w → Q w) (E : Env) (wp : Int)
    (hcompra : E.LOWORD wp = 110 → ∀ h m wp lp w, P w → P (CompraCellulare E h m wp lp w).2)
    (habbona : E.LOWORD wp = 112 → ∀ h m wp lp w, P w → P (AbbonaCellulare E h m wp lp w).2)
    (hvendi : ∀ w, w.x_vacanza ≠ 2 → w.CellularData.stato > -1 → P w → Q w.venduto)
    (h : HWND) (m lp : Int) (risposta : Int) (md : Modale) (w : World) (hw : P w) :
    Q (Cellular E h m wp lp risposta md w).2 := by
  have hq : Q w := hPQ w hw
  unfold Cellular
  by_cases hv : w.x_vacanza = 2
  · simp only [CellularVacanza, hv]
    simp
    split
    · exact hQ.aggiornaCell _ _ hq
    · repeat' split
      all_goals first | exact hq | exact hQ.messageBox _ _ _ _ hq | exact hQ.endDialog _ _ hq
  · simp only [CellularVacanza, hv]
    simp
    split
    · exact hQ.aggiornaCell _ _ hq
    · split
      · split
        · rename_i h110
          exact hQ.aggiornaCell _ _ (hPQ _ (DialogBox_inv hP _ (hcompra h110) _ _ _ hw))
        · split
          · apply hQ.aggiornaCell
            split
            · split
              · rename_i hs _
                exact hvendi (MessageBox h (testoOfferta E (Int.tdiv w.CellularData.prezzo 2 + 15))
                  "Telefonino" (MB_YESNO ||| MB_ICONQUESTION) w) hv hs (hP.messageBox _ _ _ _ hw)
              · exact hQ.messageBox _ _ _ _ (hQ.messageBox _ _ _ _ hq)
            · exact hQ.messageBox _ _ _ _ hq
          · split
            · rename_i h112
              exact hQ.aggiornaCell _ _ (hPQ _ (DialogBox_inv hP _ (habbona h112) _ _ _ hw))
            · split
              · exact hQ.endDialog _ _ hq
              · exact hq
      · exact hq

theorem Cellular_inv (hP : Stabile P) (E : Env) (wp : Int)
    (hcompra : E.LOWORD wp = 110 → ∀ h m wp lp w, P w → P (CompraCellulare E h m wp lp w).2)
    (habbona : E.LOWORD wp = 112 → ∀ h m wp lp w, P w → P (AbbonaCellulare E h m wp lp w).2)
    (hvendi : ∀ w, w.x_vacanza ≠ 2 → w.CellularData.stato > -1 → P w → P w.venduto)
    (h : HWND) (m lp : Int) (risposta : Int) (md : Modale) (w : World) (hw : P w) :
    P (Cellular E h m wp lp risposta md w).2 :=
  Cellular_inv2 hP hP (fun _ hw => hw) E wp hcompra habbona hvendi h m lp risposta md w hw

end Lemmi2

section Lemmi3
variable {P : World → Prop}

theorem esegui_inv (hP : Stabile P) (E : Env)
    (hselC : ∀ w c, (c = 110 ∨ c = 111 ∨ c = 112) → P w → P { w with sceltaCompra := c - 110 })
    (hbuyC : ∀ w, (E.CellularMem w.sceltaCompra).prezzo ≤ w.Soldi → P w → P (w.comprato E))
    (hselA : ∀ w c, (110 ≤ c ∧ c ≤ 118) → P w → P { w with sceltaAbbona := c - 110 })
    (hbuyA : ∀ w i, (E.AbbonamentMem i).prezzo ≤ w.Soldi → P w → P (w.abbonato E i))
    (hvendi : ∀ w, w.x_vacanza ≠ 2 → w.CellularData.stato > -1 → P w → P w.venduto)
    (op : Op) (w : World) (hw : P w) : P (op.esegui E w) := by
  cases op with
  | compra h m wp lp => exact CompraCellulare_inv hP E hselC hbuyC h m wp lp w hw
  | abbona h m wp lp => exact AbbonaCellulare_inv hP E hselA hbuyA h m wp lp w hw
  | cellular h m wp lp r md =>
    exact Cellular_inv hP E wp (fun _ => CompraCellulare_inv hP E hselC hbuyC)
      (fun _ => AbbonaCellulare_inv hP E hselA hbuyA) hvendi h m lp r md w hw

theorem run_cons (E : Env) (op : Op) (ops : List Op) (w : World) :
    run E (op :: ops) w = run E ops (op.esegui E w) := rfl

theorem run_inv (E : Env) (ops : List Op)
    (hops : ∀ op ∈ ops, ∀ w, P w → P (op.esegui E w)) {w : World} (hw : P w) :
    P (run E ops w) := by
  induction ops generalizing w with
  | nil => exact hw
  | cons op ops ih =>
    rw [run_cons]
    exact ih (fun o ho => hops o (List.mem_cons_of_mem _ ho)) (hops op (List.mem_cons_self _ _) w hw)

theorem run_take_inv (E : Env) (ops : List Op)
    (hops : ∀ op ∈ ops, ∀ w, P w → P (op.esegui E w)) (k : Nat) {w : World} (hw : P w) :
    P (run E (ops.take k) w) :=
  run_inv E _ (fun o ho => hops o (List.mem_of_mem_take ho)) hw

end Lemmi3

theorem stabile_sceltaInv : Stabile SceltaInv :=
  ⟨fun _ _ h => h, fun _ _ h => h⟩

theorem AggiornaCell_Soldi (E : Env) (h : HWND) (w : World) :
    (AggiornaCell E h w).Soldi = w.Soldi := by
  unfold AggiornaCell; simp only []; split <;> split <;> rfl

theorem AggiornaCell_Fama (E : Env) (h : HWND) (w : World) :
    (AggiornaCell E h w).Fama = w.Fama := by
  unfold AggiornaCell; simp only []; split <;> split <;> rfl

theorem AggiornaCell_CellularData (E : Env) (h : HWND) (w : World) :
    (AggiornaCell E h w).CellularData = w.CellularData := by
  unfold AggiornaCell; simp only []; split <;> split <;> rfl

theorem AggiornaCell_AbbonamentData (E : Env) (h : HWND) (w : World) :
    (AggiornaCell E h w).AbbonamentData = w.AbbonamentData := by
  unfold AggiornaCell; simp only []; split <;> split <;> rfl

theorem AggiornaCell_ui (E : Env) (h : HWND) (w : World) :
    ∀ c ∈ (AggiornaCell E h w).ui, c ∈ w.ui ∨ ∃ d s, c = UiCall.SetDlgItemText h d s := by
  intro c hc
  unfold AggiornaCell at hc
  simp only [] at hc
  split at hc <;> split at hc <;>
    simp only [SetDlgItemText, World.emit, List.mem_append, List.mem_singleton] at hc <;>
    rcases hc with ((((hc | hc) | hc) | hc) | hc) <;>
    first
      | exact Or.inl hc
      | exact Or.inr ⟨_, _, hc⟩

theorem testoOfferta_head (E : Env) (o : Int) :
    (testoOfferta E o).data.head? = some 'T' := by
  simp [testoOfferta, String.data_append]

theorem eOfferta_head (E : Env) (h : HWND) (msg title : String) (f : Nat)
    (hm : msg.data.head? ≠ some 'T') : ¬ UiCall.eOfferta E (UiCall.MessageBox h msg title f) := by
  rintro ⟨o, ho⟩
  exact hm (ho ▸ testoOfferta_head E o)

theorem Cellular_vendi_niente (E : Env) (hDlg : HWND) (wParam lParam risposta : Int)
    (m : Modale) (w : World)
    (hcmd : E.LOWORD wParam = 111) (hday : w.x_vacanza ≠ 2)
    (hnone : w.CellularData.stato ≤ -1) :
    Cellular E hDlg WM_COMMAND wParam lParam risposta m w =
      (true, AggiornaCell E hDlg
        (MessageBox hDlg "Che telefonino vuoi vendere, pirletta ?" "Telefonino"
          (MB_OK ||| MB_ICONINFORMATION) w)) := by
  have hs : ¬ w.CellularData.stato > -1 := not_lt.mpr hnone
  simp [Cellular, CellularVacanza, hcmd, hday, hs, WM_COMMAND, WM_INITDIALOG]

theorem Cellular_vendi_niente_ui (E : Env) (hDlg : HWND) (wParam lParam risposta : Int)
    (m : Modale) (w : World)
    (hcmd : E.LOWORD wParam = 111) (hday : w.x_vacanza ≠ 2)
    (hnone : w.CellularData.stato ≤ -1) :
    ∀ c ∈ (Cellular E hDlg WM_COMMAND wParam lParam risposta m w).2.ui,
      UiCall.eOfferta E c → c ∈ w.ui := by
  rw [Cellular_vendi_niente E hDlg wParam lParam risposta m w hcmd hday hnone]
  intro c hc hoff
  rcases AggiornaCell_ui E hDlg _ c hc with h1 | ⟨d, s, rfl⟩
  · simp only [MessageBox, World.emit, List.mem_append, List.mem_singleton] at h1
    rcases h1 with h1 | rfl
    · exact h1
    · exact absurd hoff (eOfferta_head E _ _ _ _ (by decide))
  · exact hoff.elim

/-! ## Purchase dialog: confirm -/

/-- C1: in the purchase dialog, a confirm (`IDOK`) with `Soldi` below the price
of the selected phone changes nothing of the ledger (`Soldi`, `Fama`,
`CellularData`, `AbbonamentData`) nor the selection: the only effects are the
"cannot afford" notice (`nomoney`) followed by the closing of the dialog
(`EndDialog`). -/
theorem C1_confirm_insufficient_funds (E : Env) (hDlg : HWND) (wParam lParam : Int) (w : World)
    (hcmd : E.LOWORD wParam = IDOK)
    (hpoor : w.Soldi < (E.CellularMem w.sceltaCompra).prezzo) :
    CompraCellulare E hDlg WM_COMMAND wParam lParam w =
      (true, { w with
        shouldEndDialog := true
        ui := w.ui ++ [UiCall.nomoney hDlg E.CELLULRABBONAM, UiCall.EndDialog hDlg TRUE] }) := by
  rw [CompraCellulare_povero E hDlg wParam lParam w hcmd hpoor]
  simp [nomoney, EndDialog, World.emit]

/-- Scenario of C1: funds 50, `catalog[0].price = 60`; funds remain 50 and no
phone is owned. -/
theorem C1_confirm_insufficient_funds_witness :
    negozio.LOWORD IDOK = IDOK ∧
    (inizio 50 0).Soldi < (negozio.CellularMem (inizio 50 0).sceltaCompra).prezzo ∧
    (negozio.CellularMem 0).prezzo = 60 ∧
    (CompraCellulare negozio 7 WM_COMMAND IDOK 0 (inizio 50 0)).2.Soldi = 50 ∧
    (CompraCellulare negozio 7 WM_COMMAND IDOK 0 (inizio 50 0)).2.CellularData.stato = -1 := by
  have h := C1_confirm_insufficient_funds negozio 7 IDOK 0 (inizio 50 0) (by decide) (by decide)
  refine ⟨by decide, by decide, by decide, ?_, ?_⟩
  · rw [h]; rfl
  · rw [h]; rfl

/-- C2: in the purchase dialog, a confirm (`IDOK`) with `Soldi` at least the
price of the selected phone yields exactly `Soldi - price`, the chosen catalog
entry as `CellularData`, `Fama = min 100 (Fama + delta)`, and closes the dialog;
nothing else changes. -/
theorem C2_confirm_commits (E : Env) (hDlg : HWND) (wParam lParam : Int) (w : World)
    (hcmd : E.LOWORD wParam = IDOK)
    (hrich : (E.CellularMem w.sceltaCompra).prezzo ≤ w.Soldi) :
    CompraCellulare E hDlg WM_COMMAND wParam lParam w =
      (true, { w with
        Soldi := w.Soldi - (E.CellularMem w.sceltaCompra).prezzo
        CellularData := E.CellularMem w.sceltaCompra
        Fama := min 100 (w.Fama + (E.CellularMem w.sceltaCompra).fama)
        shouldEndDialog := true
        ui := w.ui ++ [UiCall.EndDialog hDlg TRUE] }) := by
  rw [CompraCellulare_ricco E hDlg wParam lParam w hcmd hrich]
  simp [World.comprato, EndDialog, World.emit]

/-- Scenario of C2: funds 200, `catalog[1]` of price 150 and delta 10,
reputation 95; after the commit funds are 50, reputation is 100 and the owned
phone is `catalog[1]`. -/
theorem C2_confirm_commits_witness :
    negozio.LOWORD IDOK = IDOK ∧
    (negozio.CellularMem 1).prezzo = 150 ∧ (negozio.CellularMem 1).fama = 10 ∧
    (negozio.CellularMem ({ inizio 200 95 with sceltaCompra := 1 } : World).sceltaCompra).prezzo
      ≤ ({ inizio 200 95 with sceltaCompra := 1 } : World).Soldi ∧
    (CompraCellulare negozio 7 WM_COMMAND IDOK 0 { inizio 200 95 with sceltaCompra := 1 }).2.Soldi
      = 50 ∧
    (CompraCellulare negozio 7 WM_COMMAND IDOK 0 { inizio 200 95 with sceltaCompra := 1 }).2.Fama
      = 100 ∧
    (CompraCellulare negozio 7 WM_COMMAND IDOK 0
      { inizio 200 95 with sceltaCompra := 1 }).2.CellularData = negozio.CellularMem 1 := by
  have h := C2_confirm_commits negozio 7 IDOK 0 { inizio 200 95 with sceltaCompra := 1 }
    (by decide) (by decide)
  refine ⟨by decide, by decide, by decide, by decide, ?_, ?_, ?_⟩
  · rw [h]; decide
  · rw [h]; decide
  · rw [h]

/-! ## Invariants over sequences of operations -/

/-- C10: the retained selections stay within their catalogs.  From the initial
values `scelta = 0` of the two dialogs, after every operation of every sequence
of messages delivered to the three dialog procedures (so across successive
openings too), `0 ≤ scelta ≤ 2` in the purchase dialog and `0 ≤ scelta ≤ 8` in
the subscription dialog; these are the indices a confirm reads. -/
theorem C10_selection_in_bounds (E : Env) (ops : List Op) (w : World)
    (hc : w.sceltaCompra = 0) (ha : w.sceltaAbbona = 0) (k : Nat) :
    (0 ≤ (run E (ops.take k) w).sceltaCompra ∧ (run E (ops.take k) w).sceltaCompra ≤ 2) ∧
    (0 ≤ (run E (ops.take k) w).sceltaAbbona ∧ (run E (ops.take k) w).sceltaAbbona ≤ 8) := by
  have hw : SceltaInv w := by
    unfold SceltaInv
    rw [hc, ha]
    decide
  refine run_take_inv (P := SceltaInv) E ops (fun op _ w hw => ?_) k hw
  refine esegui_inv stabile_sceltaInv E (fun w c hcmd hw => ?_) (fun _ _ h => h)
    (fun w c hcmd hw => ?_) (fun _ _ _ h => h) (fun _ _ _ h => h) op w hw
  · refine ⟨?_, hw.2⟩
    show 0 ≤ c - 110 ∧ c - 110 ≤ 2
    omega
  · refine ⟨hw.1, ?_⟩
    show 0 ≤ c - 110 ∧ c - 110 ≤ 8
    omega

/-- An instance of C10: selections made in both dialogs, a purchase through the
menu, then a look at the counters. -/
theorem C10_selection_in_bounds_witness :
    (inizio 500 0).sceltaCompra = 0 ∧ (inizio 500 0).sceltaAbbona = 0 ∧
    (run negozio ([Op.compra 7 WM_COMMAND 112 0, Op.abbona 8 WM_COMMAND 118 0,
        Op.cellular 2 WM_COMMAND 110 0 0 ⟨7, [(WM_COMMAND, 111, 0), (WM_COMMAND, IDOK, 0)]⟩].take 3)
      (inizio 500 0)).sceltaCompra = 1 ∧
    (run negozio ([Op.compra 7 WM_COMMAND 112 0, Op.abbona 8 WM_COMMAND 118 0,
        Op.cellular 2 WM_COMMAND 110 0 0 ⟨7, [(WM_COMMAND, 111, 0), (WM_COMMAND, IDOK, 0)]⟩].take 3)
      (inizio 500 0)).sceltaAbbona = 8 ∧
    ((0 ≤ (run negozio ([Op.compra 7 WM_COMMAND 112 0, Op.abbona 8 WM_COMMAND 118 0,
        Op.cellular 2 WM_COMMAND 110 0 0 ⟨7, [(WM_COMMAND, 111, 0), (WM_COMMAND, IDOK, 0)]⟩].take 3)
      (inizio 500 0)).sceltaCompra ∧
      (run negozio ([Op.compra 7 WM_COMMAND 112 0, Op.abbona 8 WM_COMMAND 118 0,
        Op.cellular 2 WM_COMMAND 110 0 0 ⟨7, [(WM_COMMAND, 111, 0), (WM_COMMAND, IDOK, 0)]⟩].take 3)
      (inizio 500 0)).sceltaCompra ≤ 2) ∧
    (0 ≤ (run negozio ([Op.compra 7 WM_COMMAND 112 0, Op.abbona 8 WM_COMMAND 118 0,
        Op.cellular 2 WM_COMMAND 110 0 0 ⟨7, [(WM_COMMAND, 111, 0), (WM_COMMAND, IDOK, 0)]⟩].take 3)
      (inizio 500 0)).sceltaAbbona ∧
      (run negozio ([Op.compra 7 WM_COMMAND 112 0, Op.abbona 8 WM_COMMAND 118 0,
        Op.cellular 2 WM_COMMAND 110 0 0 ⟨7, [(WM_COMMAND, 111, 0), (WM_COMMAND, IDOK, 0)]⟩].take 3)
      (inizio 500 0)).sceltaAbbona ≤ 8)) :=
  ⟨rfl, rfl, by decide, by decide,
    C10_selection_in_bounds negozio _ (inizio 500 0) rfl rfl 3⟩

/-! ## The menu: sell-back and the holiday gate -/

theorem Cellular_vendi (E : Env) (hDlg : HWND) (wParam lParam risposta : Int)
    (m : Modale) (w : World)
    (hcmd : E.LOWORD wParam = 111) (hday : w.x_vacanza ≠ 2)
    (hown : w.CellularData.stato > -1) :
    Cellular E hDlg WM_COMMAND wParam lParam risposta m w =
      (true, AggiornaCell E hDlg
        (if risposta = IDYES then
          (MessageBox hDlg (testoOfferta E (Int.tdiv w.CellularData.prezzo 2 + 15)) "Telefonino"
            (MB_YESNO ||| MB_ICONQUESTION) w).venduto
        else
          MessageBox hDlg "Allora vai a farti fottere, pirletta !" "Telefonino"
            (MB_OK ||| MB_ICONINFORMATION)
            (MessageBox hDlg (testoOfferta E (Int.tdiv w.CellularData.prezzo 2 + 15)) "Telefonino"
              (MB_YESNO ||| MB_ICONQUESTION) w))) := by
  have hs : (-1 : Int) < w.CellularData.stato := hown
  by_cases hr : risposta = IDYES
  · simp [Cellular, CellularVacanza, hcmd, hday, hs, hr, WM_COMMAND, WM_INITDIALOG,
      World.venduto, MessageBox, World.emit]
  · simp [Cellular, CellularVacanza, hcmd, hday, hs, hr, WM_COMMAND, WM_INITDIALOG,
      MessageBox, World.emit]

/-- C5: menu command 111 on a non-holiday with a phone owned asks the yes/no
question "Ti posso dare ... per il tuo telefonino... vuoi vendermelo ?" whose
amount is `MostraSoldi (prezzo / 2 + 15)`, the division truncating; on `IDYES`
funds grow by exactly `prezzo / 2 + 15` and the phone becomes absent
(`stato = -1`), while `Fama` and the subscription are unchanged.  The summary
display is then refreshed. -/
theorem C5_sell_back_accept (E : Env) (hDlg : HWND) (wParam lParam : Int) (m : Modale)
    (w : World)
    (hcmd : E.LOWORD wParam = 111) (hday : w.x_vacanza ≠ 2)
    (hown : w.CellularData.stato > -1) :
    Cellular E hDlg WM_COMMAND wParam lParam IDYES m w =
      (true, AggiornaCell E hDlg
        { w with
          Soldi := w.Soldi + (Int.tdiv w.CellularData.prezzo 2 + 15)
          CellularData := { w.CellularData with stato := -1 }
          ui := w.ui ++ [UiCall.MessageBox hDlg
            ("Ti posso dare " ++ E.MostraSoldi (Int.tdiv w.CellularData.prezzo 2 + 15)
              ++ " per il tuo telefonino... vuoi vendermelo ?")
            "Telefonino" (MB_YESNO ||| MB_ICONQUESTION)] }) ∧
    (Cellular E hDlg WM_COMMAND wParam lParam IDYES m w).2.Soldi
      = w.Soldi + (Int.tdiv w.CellularData.prezzo 2 + 15) ∧
    (Cellular E hDlg WM_COMMAND wParam lParam IDYES m w).2.CellularData
      = { w.CellularData with stato := -1 } ∧
    (Cellular E hDlg WM_COMMAND wParam lParam IDYES m w).2.Fama = w.Fama ∧
    (Cellular E hDlg WM_COMMAND wParam lParam IDYES m w).2.AbbonamentData = w.AbbonamentData := by
  rw [Cellular_vendi E hDlg wParam lParam IDYES m w hcmd hday hown]
  simp only [if_true, AggiornaCell_Soldi, AggiornaCell_Fama, AggiornaCell_CellularData,
    AggiornaCell_AbbonamentData]
  exact ⟨rfl, rfl, rfl, rfl, rfl⟩

/-- Scenario of C5: for a phone of price 100 the question logged reads "Ti posso
dare 65 ...", and accepting takes funds from 10 to 75 and removes the phone. -/
theorem C5_sell_back_accept_witness :
    negozio.LOWORD 111 = 111 ∧
    (conTelefono 10 0 { fama := 2, stato := 0, prezzo := 100, nome := "Motorolo" }).x_vacanza ≠ 2 ∧
    (conTelefono 10 0
      { fama := 2, stato := 0, prezzo := 100, nome := "Motorolo" }).CellularData.stato > -1 ∧
    (Cellular negozio 2 WM_COMMAND 111 0 IDYES ⟨0, []⟩
      (conTelefono 10 0 { fama := 2, stato := 0, prezzo := 100, nome := "Motorolo" })).2.ui.head?
      = some (UiCall.MessageBox 2 "Ti posso dare 65 per il tuo telefonino... vuoi vendermelo ?"
          "Telefonino" 0) ∧
    (Cellular negozio 2 WM_COMMAND 111 0 IDYES ⟨0, []⟩
      (conTelefono 10 0 { fama := 2, stato := 0, prezzo := 100, nome := "Motorolo" })).2.Soldi
      = 75 ∧
    (Cellular negozio 2 WM_COMMAND 111 0 IDYES ⟨0, []⟩
      (conTelefono 10 0
        { fama := 2, stato := 0, prezzo := 100, nome := "Motorolo" })).2.CellularData.stato
      = -1 := by
  have h := C5_sell_back_accept negozio 2 111 0 ⟨0, []⟩
    (conTelefono 10 0 { fama := 2, stato := 0, prezzo := 100, nome := "Motorolo" })
    (by decide) (by decide) (by decide)
  refine ⟨by decide, by decide, by decide, ?_, ?_, ?_⟩
  · rw [h.1]; decide
  · rw [h.2.1]; decide
  · rw [h.2.2.1]

/-- C6: menu command 111 on a non-holiday with no phone owned
(`stato ≤ -1`) shows the fixed notice "Che telefonino vuoi vendere, pirletta ?"
and refreshes the display; `Soldi`, `Fama`, `CellularData` and `AbbonamentData`
are unchanged and no offer is presented (every offer in the log was there
before). -/
theorem C6_sell_nothing_to_sell (E : Env) (hDlg : HWND) (wParam lParam risposta : Int)
    (m : Modale) (w : World)
    (hcmd : E.LOWORD wParam = 111) (hday : w.x_vacanza ≠ 2)
    (hnone : w.CellularData.stato ≤ -1) :
    Cellular E hDlg WM_COMMAND wParam lParam risposta m w =
      (true, AggiornaCell E hDlg
        { w with ui := w.ui ++ [UiCall.MessageBox hDlg
            "Che telefonino vuoi vendere, pirletta ?" "Telefonino"
            (MB_OK ||| MB_ICONINFORMATION)] }) ∧
    (Cellular E hDlg WM_COMMAND wParam lParam risposta m w).2.Soldi = w.Soldi ∧
    (Cellular E hDlg WM_COMMAND wParam lParam risposta m w).2.Fama = w.Fama ∧
    (Cellular E hDlg WM_COMMAND wParam lParam risposta m w).2.CellularData = w.CellularData ∧
    (Cellular E hDlg WM_COMMAND wParam lParam risposta m w).2.AbbonamentData
      = w.AbbonamentData ∧
    (∀ c ∈ (Cellular E hDlg WM_COMMAND wParam lParam risposta m w).2.ui,
      UiCall.eOfferta E c → c ∈ w.ui) := by
  refine ⟨?_, ?_, ?_, ?_, ?_,
    Cellular_vendi_niente_ui E hDlg wParam lParam risposta m w hcmd hday hnone⟩ <;>
  rw [Cellular_vendi_niente E hDlg wParam lParam risposta m w hcmd hday hnone]
  · rfl
  · rw [AggiornaCell_Soldi]; rfl
  · rw [AggiornaCell_Fama]; rfl
  · rw [AggiornaCell_CellularData]; rfl
  · rw [AggiornaCell_AbbonamentData]; rfl

/-- An instance of C6: selling at the start of a session, with an empty log. -/
theorem C6_sell_nothing_to_sell_witness :
    negozio.LOWORD 111 = 111 ∧ (inizio 10 0).x_vacanza ≠ 2 ∧
    (inizio 10 0).CellularData.stato ≤ -1 ∧
    (Cellular negozio 2 WM_COMMAND 111 0 IDYES ⟨0, []⟩ (inizio 10 0)).2.Soldi = 10 ∧
    (∀ c ∈ (Cellular negozio 2 WM_COMMAND 111 0 IDYES ⟨0, []⟩ (inizio 10 0)).2.ui,
      ¬ UiCall.eOfferta negozio c) := by
  have h := C6_sell_nothing_to_sell negozio 2 111 0 IDYES ⟨0, []⟩ (inizio 10 0)
    (by decide) (by decide) (by decide)
  refine ⟨by decide, by decide, by decide, ?_, fun c hc hoff => ?_⟩
  · rw [h.2.1]; rfl
  · exact absurd (h.2.2.2.2.2 c hc hoff) (List.not_mem_nil c)

/-- C7: on a holiday (`x_vacanza = 2`) each of the menu commands 110, 111 and
112 changes nothing but the log, which gains exactly the holiday notice: no
ledger mutation, no child dialog, no offer.  And the gate `CellularVacanza`
reports closed (a result other than 0) exactly on a holiday. -/
theorem C7_holiday_gate (E : Env) (hDlg : HWND) (wParam lParam risposta : Int) (m : Modale)
    (w v : World)
    (hcmd : E.LOWORD wParam = 110 ∨ E.LOWORD wParam = 111 ∨ E.LOWORD wParam = 112)
    (hol : w.x_vacanza = 2) :
    Cellular E hDlg WM_COMMAND wParam lParam risposta m w =
      (true, { w with ui := w.ui ++ [UiCall.MessageBox hDlg
          "Stranamente, in un giorno di vacanza, il negozio e' chiuso..." "Telefonino"
          (MB_OK ||| MB_ICONINFORMATION)] }) ∧
    ¬ UiCall.eOfferta E (UiCall.MessageBox hDlg
        "Stranamente, in un giorno di vacanza, il negozio e' chiuso..." "Telefonino"
        (MB_OK ||| MB_ICONINFORMATION)) ∧
    ((CellularVacanza hDlg v).1 ≠ 0 ↔ v.x_vacanza = 2) := by
  refine ⟨?_, eOfferta_head E _ _ _ _ (by decide), ?_⟩
  · rcases hcmd with h | h | h <;>
      simp [Cellular, CellularVacanza, h, hol, WM_COMMAND, WM_INITDIALOG, MessageBox, World.emit]
  · unfold CellularVacanza
    by_cases hv : v.x_vacanza = 2 <;> simp [hv]

/-- An instance of C7: trying to buy a phone on a holiday with funds 500. -/
theorem C7_holiday_gate_witness :
    (negozio.LOWORD 110 = 110 ∨ negozio.LOWORD 110 = 111 ∨ negozio.LOWORD 110 = 112) ∧
    ({ inizio 500 0 with x_vacanza := 2 } : World).x_vacanza = 2 ∧
    (Cellular negozio 2 WM_COMMAND 110 0 0 ⟨7, [(WM_COMMAND, IDOK, 0)]⟩
      { inizio 500 0 with x_vacanza := 2 }).2.Soldi = 500 ∧
    (CellularVacanza 2 (inizio 500 0)).1 = 0 := by
  have h := C7_holiday_gate negozio 2 110 0 0 ⟨7, [(WM_COMMAND, IDOK, 0)]⟩
    { inizio 500 0 with x_vacanza := 2 } (inizio 500 0) (Or.inl (by decide)) rfl
  refine ⟨Or.inl (by decide), rfl, ?_, by decide⟩
  rw [h.1]; rfl

/-! ## A failed purchase followed by a sale; dismissals -/

/-- The claim C8 fails as stated: with funds 50 and a phone of price 100 already
owned, the confirm for a phone of price 60 takes the insufficient-funds branch,
and the sell action performed next presents the offer 65 and does not show the
"nothing to sell" notice. -/
theorem C8_failed_purchase_then_sell_counterexample :
    (conTelefono 50 0 { fama := 2, stato := 0, prezzo := 100, nome := "Motorolo" }).Soldi
      < (negozio.CellularMem (conTelefono 50 0
          { fama := 2, stato := 0, prezzo := 100, nome := "Motorolo" }).sceltaCompra).prezzo ∧
    UiCall.MessageBox 2 (testoOfferta negozio 65) "Telefonino" (MB_YESNO ||| MB_ICONQUESTION)
      ∈ (Cellular negozio 2 WM_COMMAND 111 0 IDNO ⟨0, []⟩
          (CompraCellulare negozio 7 WM_COMMAND IDOK 0 (conTelefono 50 0
            { fama := 2, stato := 0, prezzo := 100, nome := "Motorolo" })).2).2.ui ∧
    UiCall.MessageBox 2 "Che telefonino vuoi vendere, pirletta ?" "Telefonino"
        (MB_OK ||| MB_ICONINFORMATION)
      ∉ (Cellular negozio 2 WM_COMMAND 111 0 IDNO ⟨0, []⟩
          (CompraCellulare negozio 7 WM_COMMAND IDOK 0 (conTelefono 50 0
            { fama := 2, stato := 0, prezzo := 100, nome := "Motorolo" })).2).2.ui := by
  decide

/-- C8 (amended): for every ledger state, a confirm that takes the
insufficient-funds branch leaves `Soldi` and `CellularData` unchanged; if
moreover no phone was owned before it (`stato ≤ -1`), the sell action (menu
command 111) performed next on a non-holiday shows the "nothing to sell" notice
and presents no offer. -/
theorem C8_failed_purchase_then_sell (E : Env) (hDlg hMenu : HWND)
    (wParam lParam wParam2 lParam2 risposta : Int) (m : Modale) (w : World)
    (hcmd : E.LOWORD wParam = IDOK)
    (hpoor : w.Soldi < (E.CellularMem w.sceltaCompra).prezzo) :
    ((CompraCellulare E hDlg WM_COMMAND wParam lParam w).2.Soldi = w.Soldi ∧
     (CompraCellulare E hDlg WM_COMMAND wParam lParam w).2.CellularData = w.CellularData) ∧
    (w.CellularData.stato ≤ -1 → E.LOWORD wParam2 = 111 → w.x_vacanza ≠ 2 →
      Cellular E hMenu WM_COMMAND wParam2 lParam2 risposta m
          (CompraCellulare E hDlg WM_COMMAND wParam lParam w).2 =
        (true, AggiornaCell E hMenu
          (MessageBox hMenu "Che telefonino vuoi vendere, pirletta ?" "Telefonino"
            (MB_OK ||| MB_ICONINFORMATION)
            (CompraCellulare E hDlg WM_COMMAND wParam lParam w).2)) ∧
      (∀ c ∈ (Cellular E hMenu WM_COMMAND wParam2 lParam2 risposta m
          (CompraCellulare E hDlg WM_COMMAND wParam lParam w).2).2.ui,
        UiCall.eOfferta E c → c ∈ w.ui)) := by
  have e := CompraCellulare_povero E hDlg wParam lParam w hcmd hpoor
  refine ⟨⟨by rw [e]; rfl, by rw [e]; rfl⟩, fun hnone hsell hday => ?_⟩
  have hday1 : (CompraCellulare E hDlg WM_COMMAND wParam lParam w).2.x_vacanza ≠ 2 := by
    rw [e]; exact hday
  have hnone1 : (CompraCellulare E hDlg WM_COMMAND wParam lParam w).2.CellularData.stato ≤ -1 := by
    rw [e]; exact hnone
  refine ⟨Cellular_vendi_niente E hMenu wParam2 lParam2 risposta m _ hsell hday1 hnone1,
    fun c hc hoff => ?_⟩
  have h1 := Cellular_vendi_niente_ui E hMenu wParam2 lParam2 risposta m _ hsell hday1 hnone1
    c hc hoff
  rw [e] at h1
  simp only [EndDialog, nomoney, World.emit, List.mem_append, List.mem_singleton] at h1
  rcases h1 with (h1 | rfl) | rfl
  · exact h1
  · exact hoff.elim
  · exact hoff.elim

/-- Scenarios of C8 (amended), with funds 50 and `catalog[0].price = 60`: a
player who owns a phone of price 100 keeps funds and phone after the failed
confirm; a player who owns none finds nothing to sell afterwards. -/
theorem C8_failed_purchase_then_sell_witness :
    negozio.LOWORD IDOK = IDOK ∧
    (conTelefono 50 0 { fama := 2, stato := 0, prezzo := 100, nome := "Motorolo" }).Soldi
      < (negozio.CellularMem (conTelefono 50 0
          { fama := 2, stato := 0, prezzo := 100, nome := "Motorolo" }).sceltaCompra).prezzo ∧
    (CompraCellulare negozio 7 WM_COMMAND IDOK 0 (conTelefono 50 0
      { fama := 2, stato := 0, prezzo := 100, nome := "Motorolo" })).2.Soldi = 50 ∧
    (CompraCellulare negozio 7 WM_COMMAND IDOK 0 (conTelefono 50 0
      { fama := 2, stato := 0, prezzo := 100, nome := "Motorolo" })).2.CellularData
      = { fama := 2, stato := 0, prezzo := 100, nome := "Motorolo" } ∧
    (inizio 50 0).Soldi < (negozio.CellularMem (inizio 50 0).sceltaCompra).prezzo ∧
    (inizio 50 0).CellularData.stato ≤ -1 ∧
    negozio.LOWORD 111 = 111 ∧ (inizio 50 0).x_vacanza ≠ 2 ∧
    (Cellular negozio 2 WM_COMMAND 111 0 IDYES ⟨0, []⟩
      (CompraCellulare negozio 7 WM_COMMAND IDOK 0 (inizio 50 0)).2).2.Soldi = 50 ∧
    (∀ c ∈ (Cellular negozio 2 WM_COMMAND 111 0 IDYES ⟨0, []⟩
        (CompraCellulare negozio 7 WM_COMMAND IDOK 0 (inizio 50 0)).2).2.ui,
      ¬ UiCall.eOfferta negozio c) := by
  have h1 := C8_failed_purchase_then_sell negozio 7 2 IDOK 0 111 0 IDYES ⟨0, []⟩
    (conTelefono 50 0 { fama := 2, stato := 0, prezzo := 100, nome := "Motorolo" })
    (by decide) (by decide)
  have h2 := C8_failed_purchase_then_sell negozio 7 2 IDOK 0 111 0 IDYES ⟨0, []⟩ (inizio 50 0)
    (by decide) (by decide)
  have h3 := h2.2 (by decide) (by decide) (by decide)
  refine ⟨by decide, by decide, h1.1.1, h1.1.2, by decide, by decide, by decide, by decide,
    ?_, fun c hc hoff => ?_⟩
  · rw [h3.1, AggiornaCell_Soldi]; exact h2.1.1
  · exact absurd (h3.2 c hc hoff) (List.not_mem_nil c)

/-- C9: dismissals do not touch the ledger.  For every state, a cancel
(`IDCANCEL`) in the purchase dialog only closes the dialog, and so does a cancel
in the subscription dialog.  For every state, a declined sell-back offer (any
answer other than `IDYES` to menu command 111, on a non-holiday with a phone
owned) only adds to the log the question, the fixed dismissive notice and the
display refresh.  In all three `Soldi`, `Fama`, `CellularData` and
`AbbonamentData` are unchanged. -/
theorem C9_dismissal_no_mutation (E : Env) (hDlg : HWND)
    (wParam lParam risposta : Int) (m : Modale) (w : World) :
    (E.LOWORD wParam = IDCANCEL →
      CompraCellulare E hDlg WM_COMMAND wParam lParam w =
        (true, { w with shouldEndDialog := true, ui := w.ui ++ [UiCall.EndDialog hDlg TRUE] })) ∧
    (E.LOWORD wParam = IDCANCEL →
      AbbonaCellulare E hDlg WM_COMMAND wParam lParam w =
        (true, { w with shouldEndDialog := true, ui := w.ui ++ [UiCall.EndDialog hDlg TRUE] })) ∧
    (E.LOWORD wParam = 111 → w.x_vacanza ≠ 2 → w.CellularData.stato > -1 →
        risposta ≠ IDYES →
      Cellular E hDlg WM_COMMAND wParam lParam risposta m w =
        (true, AggiornaCell E hDlg
          { w with ui := w.ui ++
            [UiCall.MessageBox hDlg
              ("Ti posso dare " ++ E.MostraSoldi (Int.tdiv w.CellularData.prezzo 2 + 15)
                ++ " per il tuo telefonino... vuoi vendermelo ?")
              "Telefonino" (MB_YESNO ||| MB_ICONQUESTION),
             UiCall.MessageBox hDlg "Allora vai a farti fottere, pirletta !" "Telefonino"
              (MB_OK ||| MB_ICONINFORMATION)] }) ∧
      (Cellular E hDlg WM_COMMAND wParam lParam risposta m w).2.Soldi = w.Soldi ∧
      (Cellular E hDlg WM_COMMAND wParam lParam risposta m w).2.Fama = w.Fama ∧
      (Cellular E hDlg WM_COMMAND wParam lParam risposta m w).2.CellularData
        = w.CellularData ∧
      (Cellular E hDlg WM_COMMAND wParam lParam risposta m w).2.AbbonamentData
        = w.AbbonamentData) := by
  refine ⟨fun hcancel => ?_, fun hcancel => ?_, fun hsell hday hown hno => ?_⟩
  · rw [CompraCellulare_cancel E hDlg wParam lParam w hcancel]
    simp [EndDialog, World.emit]
  · simp [AbbonaCellulare, hcancel, IDCANCEL, WM_COMMAND, WM_INITDIALOG, EndDialog, World.emit]
  · rw [Cellular_vendi E hDlg wParam lParam risposta m w hsell hday hown]
    simp only [if_neg hno, AggiornaCell_Soldi, AggiornaCell_Fama, AggiornaCell_CellularData,
      AggiornaCell_AbbonamentData]
    refine ⟨?_, rfl, rfl, rfl, rfl⟩
    simp [MessageBox, World.emit, testoOfferta]

/-- Instances of C9: cancelling either dialog with no phone owned, on a holiday,
funds 10 and reputation 30; and declining the offer for a phone of price 100. -/
theorem C9_dismissal_no_mutation_witness :
    negozio.LOWORD IDCANCEL = IDCANCEL ∧
    (CompraCellulare negozio 2 WM_COMMAND IDCANCEL 0
      { inizio 10 30 with x_vacanza := 2 }).2.Soldi = 10 ∧
    (CompraCellulare negozio 2 WM_COMMAND IDCANCEL 0
      { inizio 10 30 with x_vacanza := 2 }).2.Fama = 30 ∧
    (AbbonaCellulare negozio 2 WM_COMMAND IDCANCEL 0
      { inizio 10 30 with x_vacanza := 2 }).2.Soldi = 10 ∧
    (AbbonaCellulare negozio 2 WM_COMMAND IDCANCEL 0
      { inizio 10 30 with x_vacanza := 2 }).2.Fama = 30 ∧
    negozio.LOWORD 111 = 111 ∧
    (conTelefono 10 0 { fama := 2, stato := 0, prezzo := 100, nome := "Motorolo" }).x_vacanza ≠ 2 ∧
    (conTelefono 10 0
      { fama := 2, stato := 0, prezzo := 100, nome := "Motorolo" }).CellularData.stato > -1 ∧
    IDNO ≠ IDYES ∧
    (Cellular negozio 2 WM_COMMAND 111 0 IDNO ⟨0, []⟩ (conTelefono 10 0
      { fama := 2, stato := 0, prezzo := 100, nome := "Motorolo" })).2.Soldi = 10 ∧
    (Cellular negozio 2 WM_COMMAND 111 0 IDNO ⟨0, []⟩ (conTelefono 10 0
      { fama := 2, stato := 0, prezzo := 100, nome := "Motorolo" })).2.CellularData.stato = 0 := by
  have hc := C9_dismissal_no_mutation negozio 2 IDCANCEL 0 0 ⟨0, []⟩
    { inizio 10 30 with x_vacanza := 2 }
  have hd := (C9_dismissal_no_mutation negozio 2 111 0 IDNO ⟨0, []⟩
    (conTelefono 10 0 { fama := 2, stato := 0, prezzo := 100, nome := "Motorolo" })).2.2
    (by decide) (by decide) (by decide) (by decide)
  refine ⟨by decide, ?_, ?_, ?_, ?_, by decide, by decide, by decide, by decide, ?_, ?_⟩
  · rw [hc.1 (by decide)]; rfl
  · rw [hc.1 (by decide)]; rfl
  · rw [hc.2.1 (by decide)]; rfl
  · rw [hc.2.1 (by decide)]; rfl
  · rw [hd.2.1]; rfl
  · rw [hd.2.2.2.1]; rfl

end Tabboz
